import Mathlib

/-!
Shallow embedding of the guild event tracker (src/unnamed/part_007,
`GuildEventTrackerExtension`): the snapshot store, daily-gain computation,
leaderboard compilation, daily/weekly lottery selection, summary history
persistence, day-index arithmetic and API-key rotation.

Numbers follow the source: integer-valued counters are `Int`/`Nat`, the
network level and all ratios (averages, scores) are `ℚ`.  File I/O is
modelled by explicit stores (functions / lists) passed in and returned.
JavaScript `Array.prototype.sort` (stable since ES2019, and stable in the
Node/V8 runtime this plugin targets) is modelled by a stable descending
insertion sort; stable sorts for a total preorder agree on all inputs, so
this is the same function.
-/

namespace GuildEventTracker

/-- Per-player GEXP counters as stored in a snapshot (`PlayerStats.gexp`). -/
structure GexpCounters where
  weekly : Int
  daily : Int
  deriving DecidableEq

/-- Bedwars block of a snapshot (`PlayerStats.bedwars`). -/
structure BedwarsStats where
  wins : Int
  losses : Int
  final_kills : Int
  final_deaths : Int
  kills : Int
  deaths : Int
  deriving DecidableEq

/-- SkyWars block of a snapshot (`PlayerStats.skywars`). -/
structure SkywarsStats where
  wins : Int
  losses : Int
  kills : Int
  deaths : Int
  deriving DecidableEq

/-- Cops and Crims block of a snapshot (`PlayerStats.copsandcrims`). -/
structure CopsAndCrimsStats where
  wins : Int
  kills : Int
  deaths : Int
  headshot_kills : Int
  deriving DecidableEq

/-- One per-entity per-day snapshot (`interface PlayerStats`).  The minigame
blocks and the network level are optional, exactly as in the source. -/
structure PlayerStats where
  uuid : String
  username : String
  timestamp : Int
  gexp : GexpCounters
  bedwars : Option BedwarsStats
  skywars : Option SkywarsStats
  copsandcrims : Option CopsAndCrimsStats
  networkLevel : Option ℚ
  deriving DecidableEq

/-- The per-player gain record built by `calculatePlayerDailyGains`. -/
structure PlayerGains where
  username : String
  gexp : Int
  bwWins : Int
  swWins : Int
  nwLevel : ℚ
  deriving DecidableEq

/-- Entry of `topGexpGainers` (`{ username, gained }`). -/
structure GexpEntry where
  username : String
  gained : Int
  deriving DecidableEq

/-- Entry of `topBedwarsWins` / `topSkywarsWins` (`{ username, wins }`). -/
structure WinsEntry where
  username : String
  wins : Int
  deriving DecidableEq

/-- Entry of `topNetworkLevelGain` (`{ username, gained }`, fractional). -/
structure NwEntry where
  username : String
  gained : ℚ
  deriving DecidableEq

/-- `interface DailySummary`.  `dayNumber` is optional in the source but is
set by `compileDailySummary` and by `generateDailyReport` on every path that
reaches the lottery; the JavaScript truthiness test `if (summary.dayNumber)`
is modelled as `dayNumber ≠ 0`. -/
structure DailySummary where
  date : String
  totalPlayers : Nat
  totalGexpGained : Int
  topGexpGainers : List GexpEntry
  topBedwarsWins : List WinsEntry
  topSkywarsWins : List WinsEntry
  topNetworkLevelGain : List NwEntry
  dailyWinner : Option String
  weeklyWinner : Option String
  dayNumber : Int
  deriving DecidableEq

/-- Element of `GiveawayData.dailyWinners`. -/
structure DailyWinnerRecord where
  date : String
  winner : String
  dayNumber : Int
  deriving DecidableEq

/-- Element of `GiveawayData.weeklyWinners`.  The display-only
`startDate`/`endDate` strings are omitted. -/
structure WeeklyWinnerRecord where
  weekNumber : Int
  winner : String
  deriving DecidableEq

/-- Element of `GiveawayData.dailyPools`. -/
structure DailyPoolRecord where
  date : String
  dayNumber : Int
  eligiblePlayers : List String
  deriving DecidableEq

/-- `interface GiveawayData`. -/
structure GiveawayData where
  dailyWinners : List DailyWinnerRecord
  weeklyWinners : List WeeklyWinnerRecord
  dailyPools : List DailyPoolRecord
  deriving DecidableEq

/-- Per-player weekly aggregate built inside `selectWeeklyWinner`. -/
structure WeekStats where
  totalGexp : Int
  totalBwWins : Int
  totalSwWins : Int
  totalNwGain : ℚ
  appearances : Nat
  deriving DecidableEq

/-- Scored pool member (`{ username, score, gexp }`). -/
structure ScoreEntry where
  username : String
  score : ℚ
  gexp : Int
  deriving DecidableEq

/-- Rotator state: the `hypixelApiKeys` / `currentKeyIndex` / `requestCount`
fields of the extension. -/
structure ApiKeyState where
  hypixelApiKeys : List String
  currentKeyIndex : Nat
  requestCount : Nat
  deriving DecidableEq

/-- Result of `calculatePlayerDailyGains`: the returned record (or `null`)
plus whether the missing-baseline warning was logged. -/
structure CalcResult where
  gains : Option PlayerGains
  warned : Bool
  deriving DecidableEq

/-- The per-entity per-day snapshot file tree under `data/event/`: lookup by
(player directory, day index). -/
def Store : Type := String → Int → Option PlayerStats

/-- State produced by one `generateDailyReport` pass: the final summary, the
updated giveaway record and the updated `overall.json` history. -/
structure ReportResult where
  summary : DailySummary
  giveaway : GiveawayData
  history : List DailySummary

/-- Stable insert for a descending sort: the new element goes in front of
the first element whose key is not larger (so equal keys keep the original
relative order, as the stable `Array.prototype.sort` of the runtime does). -/
def insertDescBy {α β : Type} [LinearOrder β] (key : α → β) (a : α) : List α → List α
  | [] => [a]
  | b :: l => if key b ≤ key a then a :: b :: l else b :: insertDescBy key a l

/-- Stable descending sort by a key; models
`arr.sort((a, b) => key(b) - key(a))` on the (stable) runtime sort. -/
def sortDescBy {α β : Type} [LinearOrder β] (key : α → β) : List α → List α
  | [] => []
  | a :: l => insertDescBy key a (sortDescBy key l)

/-- `getNextApiKey`: rotate to the next key every 65 requests; with no keys
configured it returns the empty string without touching the counter. -/
def getNextApiKey (st : ApiKeyState) : String × ApiKeyState :=
  if st.hypixelApiKeys = [] then ("", st)
  else
    let idx := if 0 < st.requestCount ∧ st.requestCount % 65 = 0
      then (st.currentKeyIndex + 1) % st.hypixelApiKeys.length
      else st.currentKeyIndex
    ((st.hypixelApiKeys.get? idx).getD "",
      { st with currentKeyIndex := idx, requestCount := st.requestCount + 1 })

/-- Milliseconds per day (`24 * 60 * 60 * 1000`). -/
def msPerDay : Int := 24 * 60 * 60 * 1000

/-- `getCurrentDay`: `Math.floor((today - eventStart) / msPerDay) + 1`,
on millisecond timestamps. -/
def getCurrentDay (startMs nowMs : Int) : Int :=
  (nowMs - startMs).fdiv msPerDay + 1

/-- `savePlayerStats`: writes the snapshot under `day${getCurrentDay()}` for
the player, leaving every other (player, day) file unchanged. -/
def savePlayerStats (store : Store) (startMs nowMs : Int) (uuid : String)
    (stats : PlayerStats) : Store :=
  fun u d => if u = uuid ∧ d = getCurrentDay startMs nowMs then some stats else store u d

/-- `calculatePlayerDailyGains`: reads the day-`currentDay` snapshot (absent
file means `null`); with a baseline it returns per-family differences where
an absent family counts as zero, and with no baseline it falls back to the
own since-midnight GEXP counter of the snapshot, zeroes the other families
and logs a warning. -/
def calculatePlayerDailyGains (store : Store) (playerDir : String) (currentDay : Int) :
    CalcResult :=
  match store playerDir currentDay with
  | none => { gains := none, warned := false }
  | some todayData =>
    match store playerDir 0 with
    | none =>
      { gains := some
          { username := todayData.username
            gexp := todayData.gexp.daily
            bwWins := 0
            swWins := 0
            nwLevel := 0 }
        warned := true }
    | some baselineData =>
      { gains := some
          { username := todayData.username
            gexp := todayData.gexp.weekly - baselineData.gexp.weekly
            bwWins := ((todayData.bedwars.map fun b => b.wins).getD 0)
              - ((baselineData.bedwars.map fun b => b.wins).getD 0)
            swWins := ((todayData.skywars.map fun s => s.wins).getD 0)
              - ((baselineData.skywars.map fun s => s.wins).getD 0)
            nwLevel := (todayData.networkLevel.getD 0)
              - (baselineData.networkLevel.getD 0) }
        warned := false }

/-- The weekly-GEXP metric of a snapshot. -/
def gexpWeeklyOf (s : PlayerStats) : Int := s.gexp.weekly

/-- The Bedwars-wins metric of a snapshot, an absent family counting as 0. -/
def bwWinsOf (s : PlayerStats) : Int :=
  match s.bedwars with
  | some b => b.wins
  | none => 0

/-- The SkyWars-wins metric of a snapshot, an absent family counting as 0. -/
def swWinsOf (s : PlayerStats) : Int :=
  match s.skywars with
  | some b => b.wins
  | none => 0

/-- The network-level metric of a snapshot, absent counting as 0. -/
def nwLevelOf (s : PlayerStats) : ℚ :=
  match s.networkLevel with
  | some x => x
  | none => 0

/-- Core of `compileDailySummary` once the per-player gains are collected:
totals plus the four top-10 lists.  The source sorts the single
`playerGains` array in place four times in a row, so each sort starts from
the order produced by the previous one; the network-level gains are rounded
to two decimals when the entries are built. -/
def compileFromGains (gains : List PlayerGains) (date : String) (currentDay : Int) :
    DailySummary :=
  let sorted1 := sortDescBy (fun p => p.gexp) gains
  let sorted2 := sortDescBy (fun p => p.bwWins) sorted1
  let sorted3 := sortDescBy (fun p => p.swWins) sorted2
  let sorted4 := sortDescBy (fun p => p.nwLevel) sorted3
  { date := date
    totalPlayers := gains.length
    totalGexpGained := (gains.map fun p => p.gexp).sum
    topGexpGainers := (sorted1.take 10).map fun p => { username := p.username, gained := p.gexp }
    topBedwarsWins := (sorted2.take 10).map fun p => { username := p.username, wins := p.bwWins }
    topSkywarsWins := (sorted3.take 10).map fun p => { username := p.username, wins := p.swWins }
    topNetworkLevelGain := (sorted4.take 10).map fun p =>
      { username := p.username, gained := ((round ((p.nwLevel * 100 : ℚ)) : ℤ) : ℚ) / 100 }
    dailyWinner := none
    weeklyWinner := none
    dayNumber := currentDay }

/-- `compileDailySummary`: enumerate the player directories, collect the
gains of those with a readable day-`currentDay` snapshot, and build the
summary. -/
def compileDailySummary (playerDirs : List String) (store : Store) (currentDay : Int)
    (date : String) : DailySummary :=
  compileFromGains
    (playerDirs.filterMap fun d => (calculatePlayerDailyGains store d currentDay).gains)
    date currentDay

/-- The daily average: `totalPlayers > 0 ? totalGexpGained / totalPlayers : 1`. -/
def averageGexp (s : DailySummary) : ℚ :=
  if 0 < s.totalPlayers then (s.totalGexpGained : ℚ) / (s.totalPlayers : ℚ) else 1

/-- `Set.add` on a JavaScript `Set` iterated in insertion order. -/
def addUnique (l : List String) (x : String) : List String :=
  if x ∈ l then l else l ++ [x]

/-- The eligible pool: union (in insertion order) of the four top-10 lists. -/
def eligiblePool (s : DailySummary) : List String :=
  let p0 := (s.topGexpGainers.take 10).foldl (fun acc p => addUnique acc p.username) []
  let p1 := (s.topBedwarsWins.take 10).foldl (fun acc p => addUnique acc p.username) p0
  let p2 := (s.topSkywarsWins.take 10).foldl (fun acc p => addUnique acc p.username) p1
  (s.topNetworkLevelGain.take 10).foldl (fun acc p => addUnique acc p.username) p2

/-- Membership in the union of the four top-10 lists of a summary. -/
def inTopUnion (s : DailySummary) (u : String) : Prop :=
  u ∈ (s.topGexpGainers.take 10).map (fun p => p.username)
  ∨ u ∈ (s.topBedwarsWins.take 10).map (fun p => p.username)
  ∨ u ∈ (s.topSkywarsWins.take 10).map (fun p => p.username)
  ∨ u ∈ (s.topNetworkLevelGain.take 10).map (fun p => p.username)

/-- The `dailyPools` record pushed by `selectDailyWinner`. -/
def poolRecord (s : DailySummary) : DailyPoolRecord :=
  { date := s.date, dayNumber := s.dayNumber, eligiblePlayers := eligiblePool s }

/-- Scores of the pool members: the gain of each member is looked up in the full
GEXP leaderboard (0 if absent), zero-gain members are skipped, and
`score = gain / average`. -/
def dailyPlayerScores (pool : List String) (s : DailySummary) (avg : ℚ) : List ScoreEntry :=
  pool.filterMap fun u =>
    let topGexp : Int := ((s.topGexpGainers.find? fun p => p.username == u).map
      fun p => p.gained).getD 0
    if topGexp = 0 then none
    else some { username := u, score := (topGexp : ℚ) / avg, gexp := topGexp }

/-- `selectDailyWinner`: guard on a zero average, record the eligible pool
(only when `summary.dayNumber` is truthy), then pick the highest-scoring
pool member; `!winner` (no scored member, or an empty username) means no
winner. -/
def selectDailyWinner (s : DailySummary) (g : GiveawayData) : Option String × GiveawayData :=
  if averageGexp s = 0 then (none, g)
  else
    let pool := eligiblePool s
    let g1 := if s.dayNumber = 0 then g
      else { g with dailyPools := g.dailyPools ++ [poolRecord s] }
    if pool = [] then (none, g1)
    else
      match sortDescBy (fun e => e.score) (dailyPlayerScores pool s (averageGexp s)) with
      | [] => (none, g1)
      | w :: _ => if w.username = "" then (none, g1) else (some w.username, g1)

/-- `saveOverallSummary`: load `overall.json` and push the new summary. -/
def saveOverallSummary (summary : DailySummary) (allSummaries : List DailySummary) :
    List DailySummary :=
  allSummaries ++ [summary]

/-- The week window filter inside `selectWeeklyWinner`:
`s.dayNumber && s.dayNumber >= (w-1)*7+1 && s.dayNumber <= w*7`. -/
def weekSummariesOf (allSummaries : List DailySummary) (weekNumber : Int) :
    List DailySummary :=
  let startDay := (weekNumber - 1) * 7 + 1
  let endDay := weekNumber * 7
  allSummaries.filter fun s =>
    decide (s.dayNumber ≠ 0 ∧ startDay ≤ s.dayNumber ∧ s.dayNumber ≤ endDay)

/-- Sum of `totalGexpGained` over the summaries of the week. -/
def weekTotalGexp (ws : List DailySummary) : Int :=
  (ws.map fun s => s.totalGexpGained).sum

/-- Sum of `totalPlayers` over the summaries of the week. -/
def weekTotalPlayers (ws : List DailySummary) : Nat :=
  (ws.map fun s => s.totalPlayers).sum

/-- The weekly average as the source computes it:
`weekTotalGexp / (weekTotalPlayers / weekSummaries.length)` when the week
had any participants, else 1. -/
def weekAverageGexp (ws : List DailySummary) : ℚ :=
  if 0 < weekTotalPlayers ws then
    (weekTotalGexp ws : ℚ) / ((weekTotalPlayers ws : ℚ) / (ws.length : ℚ))
  else 1

/-- Fresh `playerWeekStats` entry. -/
def zeroWeekStats : WeekStats :=
  { totalGexp := 0, totalBwWins := 0, totalSwWins := 0, totalNwGain := 0, appearances := 0 }

/-- Contribution of one day to the weekly aggregate of a member: add the
gains the member shows in each leaderboard of that day (0 if absent). -/
def addDayStats (s : DailySummary) (u : String) (st : WeekStats) : WeekStats :=
  { totalGexp := st.totalGexp + (((s.topGexpGainers.find? fun p => p.username == u).map
      fun p => p.gained).getD 0)
    totalBwWins := st.totalBwWins + (((s.topBedwarsWins.find? fun p => p.username == u).map
      fun p => p.wins).getD 0)
    totalSwWins := st.totalSwWins + (((s.topSkywarsWins.find? fun p => p.username == u).map
      fun p => p.wins).getD 0)
    totalNwGain := st.totalNwGain + (((s.topNetworkLevelGain.find? fun p => p.username == u).map
      fun p => p.gained).getD 0)
    appearances := st.appearances + 1 }

/-- Update of the insertion-ordered `Map` used for `playerWeekStats`. -/
def updateAssoc (m : List (String × WeekStats)) (u : String) (f : WeekStats → WeekStats) :
    List (String × WeekStats) :=
  match m with
  | [] => [(u, f zeroWeekStats)]
  | (k, v) :: t => if k = u then (k, f v) :: t else (k, v) :: updateAssoc t u f

/-- Fold the eligible pool of one day into the weekly aggregates. -/
def accumulateDay (m : List (String × WeekStats)) (s : DailySummary) :
    List (String × WeekStats) :=
  (eligiblePool s).foldl (fun acc u => updateAssoc acc u (addDayStats s u)) m

/-- The `playerWeekStats` map after processing every summary of the week. -/
def playerWeekStats (ws : List DailySummary) : List (String × WeekStats) :=
  ws.foldl accumulateDay []

/-- Weekly scores: members with a zero week-aggregated GEXP gain are
skipped, the rest get `score = totalGexp / weekAverageGexp`. -/
def weeklyPlayerScores (ws : List DailySummary) : List ScoreEntry :=
  (playerWeekStats ws).filterMap fun kv =>
    if kv.2.totalGexp = 0 then none
    else some { username := kv.1, score := (kv.2.totalGexp : ℚ) / weekAverageGexp ws,
                gexp := kv.2.totalGexp }

/-- `selectWeeklyWinner` on the loaded `overall.json` history. -/
def selectWeeklyWinner (allSummaries : List DailySummary) (weekNumber : Int) : Option String :=
  let ws := weekSummariesOf allSummaries weekNumber
  if ws = [] then none
  else if weekAverageGexp ws = 0 ∨ playerWeekStats ws = [] then none
  else
    match sortDescBy (fun e => e.score) (weeklyPlayerScores ws) with
    | [] => none
    | w :: _ => if w.username = "" then none else some w.username

/-- One `generateDailyReport` pass over already-loaded state: stamp the day
number on the compiled summary, run the daily draw, run the weekly draw when
`dayNumber % 7 === 0` (week index `Math.floor(dayNumber / 7)`), then append
the summary to the history. -/
def generateDailyReportCore (allSummaries : List DailySummary) (g : GiveawayData)
    (s0 : DailySummary) (dayNumber : Int) : ReportResult :=
  let s1 : DailySummary := { s0 with dayNumber := dayNumber }
  let dres := selectDailyWinner s1 g
  let s2 := match dres.1 with
    | some w => { s1 with dailyWinner := some w }
    | none => s1
  let g2 := match dres.1 with
    | some w => { dres.2 with dailyWinners := dres.2.dailyWinners ++
        [{ date := s1.date, winner := w, dayNumber := dayNumber }] }
    | none => dres.2
  if dayNumber % 7 = 0 then
    let weekNumber := dayNumber.fdiv 7
    match selectWeeklyWinner allSummaries weekNumber with
    | some w =>
      { summary := { s2 with weeklyWinner := some w }
        giveaway := { g2 with weeklyWinners := g2.weeklyWinners ++
          [{ weekNumber := weekNumber, winner := w }] }
        history := saveOverallSummary { s2 with weeklyWinner := some w } allSummaries }
    | none =>
      { summary := s2, giveaway := g2, history := saveOverallSummary s2 allSummaries }
  else
    { summary := s2, giveaway := g2, history := saveOverallSummary s2 allSummaries }

/-! Concrete data used by witnesses and counterexamples. -/

/-- Report date used by the concrete examples. -/
def exDate : String := "2025-12-04"

/-- Fresh giveaway state. -/
def emptyGiveaway : GiveawayData := { dailyWinners := [], weeklyWinners := [], dailyPools := [] }

/-- Username of example player A. -/
def uA : String := "PlayerA"

/-- Username of example player B. -/
def uB : String := "PlayerB"

/-- Username of example player C. -/
def uC : String := "PlayerC"

/-- Snapshot directory of player A. -/
def dirA : String := "aaaa"

/-- Snapshot directory of player B. -/
def dirB : String := "bbbb"

/-- Snapshot directory of player C. -/
def dirC : String := "cccc"

/-- Baseline (day 0) snapshot of player A. -/
def baseA : PlayerStats :=
  { uuid := dirA, username := uA, timestamp := 0, gexp := { weekly := 10, daily := 0 }
    bedwars := some { wins := 2, losses := 0, final_kills := 0, final_deaths := 0,
                      kills := 0, deaths := 0 }
    skywars := none, copsandcrims := none, networkLevel := none }

/-- Day-3 snapshot of player A. -/
def todayA : PlayerStats :=
  { uuid := dirA, username := uA, timestamp := 3, gexp := { weekly := 11, daily := 7 }
    bedwars := some { wins := 7, losses := 0, final_kills := 0, final_deaths := 0,
                      kills := 0, deaths := 0 }
    skywars := none, copsandcrims := none, networkLevel := none }

/-- Baseline (day 0) snapshot of player B. -/
def baseB : PlayerStats :=
  { uuid := dirB, username := uB, timestamp := 0, gexp := { weekly := 0, daily := 0 }
    bedwars := some { wins := 0, losses := 0, final_kills := 0, final_deaths := 0,
                      kills := 0, deaths := 0 }
    skywars := none, copsandcrims := none, networkLevel := none }

/-- Day-3 snapshot of player B. -/
def todayB : PlayerStats :=
  { uuid := dirB, username := uB, timestamp := 3, gexp := { weekly := 2, daily := 3 }
    bedwars := some { wins := 5, losses := 0, final_kills := 0, final_deaths := 0,
                      kills := 0, deaths := 0 }
    skywars := none, copsandcrims := none, networkLevel := none }

/-- Day-3 snapshot of player C, who has no baseline (joined mid-event). -/
def todayC : PlayerStats :=
  { uuid := dirC, username := uC, timestamp := 3, gexp := { weekly := 9, daily := 4 }
    bedwars := none, skywars := none, copsandcrims := none, networkLevel := none }

/-- Example snapshot tree: A and B have a baseline and a day-3 snapshot, C
has only the day-3 snapshot. -/
def exStore : Store := fun u d =>
  if u = dirA then (if d = 0 then some baseA else if d = 3 then some todayA else none)
  else if u = dirB then (if d = 0 then some baseB else if d = 3 then some todayB else none)
  else if u = dirC then (if d = 3 then some todayC else none)
  else none

/-- Two gain records with equal GEXP, used to exhibit stability of the first
sort. -/
def gC : PlayerGains := { username := uA, gexp := 4, bwWins := 1, swWins := 0, nwLevel := 0 }

/-- Second gain record with the same GEXP as `gC`. -/
def gD : PlayerGains := { username := uB, gexp := 4, bwWins := 2, swWins := 0, nwLevel := 0 }

/-- A daily summary with one GEXP leaderboard entry and no counted
participants, exercising the zero-participant average guard. -/
def exPoolSummary : DailySummary :=
  { date := exDate, totalPlayers := 0, totalGexpGained := 0
    topGexpGainers := [{ username := uA, gained := 5 }]
    topBedwarsWins := [], topSkywarsWins := [], topNetworkLevelGain := []
    dailyWinner := none, weeklyWinner := none, dayNumber := 1 }

/-- Week-window day summary: day 1, 2 participants, 6 GEXP. -/
def exW1 : DailySummary :=
  { date := exDate, totalPlayers := 2, totalGexpGained := 6
    topGexpGainers := [], topBedwarsWins := [], topSkywarsWins := []
    topNetworkLevelGain := [], dailyWinner := none, weeklyWinner := none, dayNumber := 1 }

/-- Week-window day summary: day 2, 3 participants, 4 GEXP. -/
def exW2 : DailySummary :=
  { date := exDate, totalPlayers := 3, totalGexpGained := 4
    topGexpGainers := [], topBedwarsWins := [], topSkywarsWins := []
    topNetworkLevelGain := [], dailyWinner := none, weeklyWinner := none, dayNumber := 2 }

/-- The summary compiled from an empty gains list for day 3. -/
def exSummaryDay3 : DailySummary := compileFromGains [] exDate 3

/-- Two compile-and-report passes for the same day 3, the second starting
from the history left by the first. -/
def exSecondReport : ReportResult :=
  generateDailyReportCore (generateDailyReportCore [] emptyGiveaway exSummaryDay3 3).history
    emptyGiveaway exSummaryDay3 3

/-! Helper lemmas about the stable sort and the pool construction. -/

/-- Inserting permutes: `insertDescBy key a l` is `a :: l` up to order. -/
theorem perm_insertDescBy {α β : Type} [LinearOrder β] (key : α → β) (a : α) (l : List α) :
    (insertDescBy key a l).Perm (a :: l) := by
  induction l with
  | nil => simp [insertDescBy]
  | cons b t ih =>
    rw [insertDescBy]
    split
    · exact List.Perm.refl _
    · exact (ih.cons b).trans (List.Perm.swap a b t)

/-- Sorting permutes the input. -/
theorem perm_sortDescBy {α β : Type} [LinearOrder β] (key : α → β) (l : List α) :
    (sortDescBy key l).Perm l := by
  induction l with
  | nil => simp [sortDescBy]
  | cons a t ih =>
    rw [sortDescBy]
    exact (perm_insertDescBy key a (sortDescBy key t)).trans (ih.cons a)

/-- Membership through `insertDescBy`. -/
theorem mem_insertDescBy {α β : Type} [LinearOrder β] {key : α → β} {a x : α} {l : List α} :
    x ∈ insertDescBy key a l ↔ x = a ∨ x ∈ l := by
  rw [(perm_insertDescBy key a l).mem_iff, List.mem_cons]

/-- Membership through `sortDescBy`. -/
theorem mem_sortDescBy {α β : Type} [LinearOrder β] {key : α → β} {x : α} {l : List α} :
    x ∈ sortDescBy key l ↔ x ∈ l := (perm_sortDescBy key l).mem_iff

/-- Inserting into a descending list keeps it descending. -/
theorem pairwise_insertDescBy {α β : Type} [LinearOrder β] {key : α → β} {l : List α} (a : α)
    (h : l.Pairwise fun x y => key y ≤ key x) :
    (insertDescBy key a l).Pairwise fun x y => key y ≤ key x := by
  induction l with
  | nil => simp [insertDescBy]
  | cons b t ih =>
    rw [List.pairwise_cons] at h
    rw [insertDescBy]
    split
    · rename_i hba
      refine List.pairwise_cons.mpr ⟨?_, List.pairwise_cons.mpr h⟩
      intro y hy
      rcases List.mem_cons.mp hy with rfl | hyt
      · exact hba
      · exact (h.1 y hyt).trans hba
    · rename_i hba
      refine List.pairwise_cons.mpr ⟨?_, ih h.2⟩
      intro y hy
      rcases mem_insertDescBy.mp hy with rfl | hyt
      · exact le_of_lt (lt_of_not_le hba)
      · exact h.1 y hyt

/-- The sort output is descending in the key. -/
theorem pairwise_sortDescBy {α β : Type} [LinearOrder β] (key : α → β) (l : List α) :
    (sortDescBy key l).Pairwise fun x y => key y ≤ key x := by
  induction l with
  | nil => simp [sortDescBy]
  | cons a t ih =>
    rw [sortDescBy]
    exact pairwise_insertDescBy a ih

/-- The old list survives an insertion as a sublist. -/
theorem sublist_insertDescBy_self {α β : Type} [LinearOrder β] (key : α → β) (a : α)
    (s : List α) : s.Sublist (insertDescBy key a s) := by
  induction s with
  | nil => simp [insertDescBy]
  | cons b t ih =>
    rw [insertDescBy]
    split
    · exact List.sublist_cons_self a (b :: t)
    · exact ih.cons₂ b

/-- Stability core: an element dominating a sublist stays in front of it
after being inserted. -/
theorem cons_sublist_insertDescBy {α β : Type} [LinearOrder β] {key : α → β} {a : α}
    {c s : List α} (hc : c.Sublist s) (hk : ∀ y ∈ c, key y ≤ key a) :
    (a :: c).Sublist (insertDescBy key a s) := by
  induction s generalizing c with
  | nil =>
    have hcnil : c = [] := List.sublist_nil.mp hc
    subst hcnil
    simp [insertDescBy]
  | cons b t ih =>
    rw [insertDescBy]
    split
    · exact hc.cons₂ a
    · rename_i hba
      rcases List.sublist_cons_iff.mp hc with h | ⟨r, rfl, hr⟩
      · exact (ih h hk).cons b
      · exact absurd (hk b (List.mem_cons_self b r)) hba

/-- Stability of the sort: any key-descending sublist of the input is a
sublist of the output (so elements with equal keys keep their order). -/
theorem sublist_sortDescBy {α β : Type} [LinearOrder β] {key : α → β} {c l : List α}
    (hp : c.Pairwise fun x y => key y ≤ key x) (hc : c.Sublist l) :
    c.Sublist (sortDescBy key l) := by
  induction l generalizing c with
  | nil =>
    have hcnil : c = [] := List.sublist_nil.mp hc
    subst hcnil
    simp [sortDescBy]
  | cons a t ih =>
    rw [sortDescBy]
    rcases List.sublist_cons_iff.mp hc with h | ⟨r, rfl, hr⟩
    · exact (ih hp h).trans (sublist_insertDescBy_self key a (sortDescBy key t))
    · rw [List.pairwise_cons] at hp
      exact cons_sublist_insertDescBy (ih hp.2 hr) hp.1

/-- Membership through `addUnique`. -/
theorem mem_addUnique {l : List String} {x u : String} :
    u ∈ addUnique l x ↔ u ∈ l ∨ u = x := by
  rw [addUnique]
  split
  · rename_i hx
    constructor
    · exact Or.inl
    · rintro (h | rfl)
      · exact h
      · exact hx
  · simp

/-- Membership through a fold of `addUnique` over a mapped list. -/
theorem mem_foldl_addUnique {α : Type} (f : α → String) (l : List α) (acc : List String)
    (u : String) :
    u ∈ l.foldl (fun acc2 p => addUnique acc2 (f p)) acc ↔ u ∈ acc ∨ u ∈ l.map f := by
  induction l generalizing acc with
  | nil => simp
  | cons a t ih =>
    rw [List.foldl_cons, ih]
    rw [mem_addUnique]
    simp only [List.map_cons, List.mem_cons]
    tauto

/-- The eligible pool is exactly the union of the four top-10 lists. -/
theorem mem_eligiblePool {s : DailySummary} {u : String} :
    u ∈ eligiblePool s ↔ inTopUnion s u := by
  rw [eligiblePool, inTopUnion]
  simp only [mem_foldl_addUnique, List.not_mem_nil, false_or]
  tauto

/-- Option-default form of the Bedwars metric equals the match form. -/
theorem bw_getD_eq (s : PlayerStats) : ((s.bedwars.map fun b => b.wins).getD 0) = bwWinsOf s := by
  rcases hb : s.bedwars with _ | b <;> simp [bwWinsOf, hb]

/-- Option-default form of the SkyWars metric equals the match form. -/
theorem sw_getD_eq (s : PlayerStats) : ((s.skywars.map fun b => b.wins).getD 0) = swWinsOf s := by
  rcases hb : s.skywars with _ | b <;> simp [swWinsOf, hb]

/-- Option-default form of the network-level metric equals the match form. -/
theorem nw_getD_eq (s : PlayerStats) : s.networkLevel.getD 0 = nwLevelOf s := by
  rcases hb : s.networkLevel with _ | x <;> simp [nwLevelOf, hb]

/-- A zero average short-circuits the daily draw before any state change. -/
theorem selectDailyWinner_of_avg_zero (s : DailySummary) (g : GiveawayData)
    (h : averageGexp s = 0) : selectDailyWinner s g = (none, g) := by
  rw [selectDailyWinner, if_pos h]

/-- The daily draw never touches the daily-winners list itself. -/
theorem selectDailyWinner_dailyWinners (s : DailySummary) (g : GiveawayData) :
    (selectDailyWinner s g).2.dailyWinners = g.dailyWinners := by
  rw [selectDailyWinner]
  dsimp only
  repeat' split <;> try rfl

/-- The daily draw never touches the weekly-winners list. -/
theorem selectDailyWinner_weeklyWinners (s : DailySummary) (g : GiveawayData) :
    (selectDailyWinner s g).2.weeklyWinners = g.weeklyWinners := by
  rw [selectDailyWinner]
  dsimp only
  repeat' split <;> try rfl

/-- With a truthy day number and a nonzero average, the draw records exactly
the pool of the summary. -/
theorem selectDailyWinner_pools (s : DailySummary) (g : GiveawayData)
    (hd : s.dayNumber ≠ 0) (ha : averageGexp s ≠ 0) :
    (selectDailyWinner s g).2.dailyPools = g.dailyPools ++ [poolRecord s] := by
  rw [selectDailyWinner, if_neg ha]
  dsimp only
  rw [if_neg hd]
  repeat' split <;> try rfl

/-- An empty pool yields no daily winner. -/
theorem selectDailyWinner_none_of_pool_nil (s : DailySummary) (g : GiveawayData)
    (hpool : eligiblePool s = []) : (selectDailyWinner s g).1 = none := by
  by_cases ha : averageGexp s = 0
  · rw [selectDailyWinner_of_avg_zero s g ha]
  · rw [selectDailyWinner, if_neg ha]
    dsimp only
    rw [hpool]
    simp

/-- A daily winner can only be produced when the average is nonzero. -/
theorem avg_ne_zero_of_winner (s : DailySummary) (g : GiveawayData) (w : String)
    (h : (selectDailyWinner s g).1 = some w) : averageGexp s ≠ 0 := by
  intro ha
  rw [selectDailyWinner_of_avg_zero s g ha] at h
  exact Option.noConfusion h

/-- Every scored entry comes from a pool member. -/
theorem mem_pool_of_mem_dailyPlayerScores {pool : List String} {s : DailySummary} {avg : ℚ}
    {e : ScoreEntry} (he : e ∈ dailyPlayerScores pool s avg) : e.username ∈ pool := by
  simp only [dailyPlayerScores, List.mem_filterMap] at he
  obtain ⟨u, hu, heq⟩ := he
  split at heq
  · exact Option.noConfusion heq
  · injection heq with h2
    subst h2
    exact hu

/-- The daily winner is a member of the eligible pool. -/
theorem winner_mem_pool (s : DailySummary) (g : GiveawayData) (w : String)
    (h : (selectDailyWinner s g).1 = some w) : w ∈ eligiblePool s := by
  have ha : averageGexp s ≠ 0 := avg_ne_zero_of_winner s g w h
  rw [selectDailyWinner, if_neg ha] at h
  dsimp only at h
  split at h
  · exact Option.noConfusion h
  · rcases hsort : sortDescBy (fun e => e.score)
      (dailyPlayerScores (eligiblePool s) s (averageGexp s)) with _ | ⟨w0, t⟩
    · rw [hsort] at h
      exact Option.noConfusion h
    · rw [hsort] at h
      dsimp only at h
      split at h
      · exact Option.noConfusion h
      · injection h with h2
        subst h2
        have hw0 : w0 ∈ sortDescBy (fun e => e.score)
            (dailyPlayerScores (eligiblePool s) s (averageGexp s)) := by
          rw [hsort]
          exact List.mem_cons_self w0 t
        rw [mem_sortDescBy] at hw0
        exact mem_pool_of_mem_dailyPlayerScores hw0

/-- C1: for every entity with both a readable baseline (day 0) and a
readable day-`d` snapshot, the computed gains are the component-wise
differences of the four tracked metric families (weekly GEXP, Bedwars wins,
SkyWars wins, network level), a family absent in either snapshot counting
as zero; no fallback warning is emitted. -/
theorem C1_delta_componentwise (store : Store) (pid : String) (d : Int)
    (base today : PlayerStats) (h0 : store pid 0 = some base) (hn : store pid d = some today) :
    (calculatePlayerDailyGains store pid d).gains = some
      { username := today.username
        gexp := gexpWeeklyOf today - gexpWeeklyOf base
        bwWins := bwWinsOf today - bwWinsOf base
        swWins := swWinsOf today - swWinsOf base
        nwLevel := nwLevelOf today - nwLevelOf base }
    ∧ (calculatePlayerDailyGains store pid d).warned = false := by
  simp [calculatePlayerDailyGains, hn, h0, bw_getD_eq, sw_getD_eq, nw_getD_eq, gexpWeeklyOf]

/-- C1 witness: players A and B of the example store, with the SkyWars
family absent from both snapshots. -/
theorem C1_delta_componentwise_witness :
    exStore dirA 0 = some baseA ∧ exStore dirA 3 = some todayA
    ∧ (calculatePlayerDailyGains exStore dirA 3).gains = some
      { username := todayA.username
        gexp := gexpWeeklyOf todayA - gexpWeeklyOf baseA
        bwWins := bwWinsOf todayA - bwWinsOf baseA
        swWins := swWinsOf todayA - swWinsOf baseA
        nwLevel := nwLevelOf todayA - nwLevelOf baseA } :=
  ⟨by decide, by decide,
    (C1_delta_componentwise exStore dirA 3 baseA todayA (by decide) (by decide)).1⟩

/-- C8: an entity with a day-`d` snapshot but no baseline is not dropped:
its gain record carries the own since-midnight daily GEXP counter of the snapshot
as the primary delta, zeroes for every other family, and the warning flag is
set. -/
theorem C8_missing_baseline_fallback (store : Store) (pid : String) (d : Int)
    (today : PlayerStats) (hn : store pid d = some today) (h0 : store pid 0 = none) :
    calculatePlayerDailyGains store pid d =
      { gains := some { username := today.username, gexp := today.gexp.daily
                        bwWins := 0, swWins := 0, nwLevel := 0 }
        warned := true } := by
  simp only [calculatePlayerDailyGains, hn, h0]

/-- C8 witness: player C of the example store has only a day-3 snapshot. -/
theorem C8_missing_baseline_fallback_witness :
    exStore dirC 3 = some todayC ∧ exStore dirC 0 = none
    ∧ calculatePlayerDailyGains exStore dirC 3 =
      { gains := some { username := todayC.username, gexp := todayC.gexp.daily
                        bwWins := 0, swWins := 0, nwLevel := 0 }
        warned := true } :=
  ⟨by decide, by decide,
    C8_missing_baseline_fallback exStore dirC 3 todayC (by decide) (by decide)⟩

/-- C9 counterexample: one millisecond before the event start date the
computed day index is 0, not at least 1, and the periodic snapshot write at
that moment targets — and overwrites — the day-0 baseline file of the entity. -/
theorem C9_day_index_counterexample :
    getCurrentDay 86400000 86399999 = 0
    ∧ savePlayerStats (fun _ _ => none) 86400000 86399999 dirA todayA dirA 0 = some todayA := by
  constructor
  · decide
  · rw [savePlayerStats, if_pos]
    exact ⟨rfl, by decide⟩

/-- C9 amended: at every wall-clock time at or after the event start date
the computed day index is at least 1, so such polls never write the
day-0 baseline file; before the start date the index can be 0 or negative
and the baseline is not protected. -/
theorem C9_day_index_amended (startMs nowMs : Int) (h : startMs ≤ nowMs) :
    1 ≤ getCurrentDay startMs nowMs
    ∧ ∀ (store : Store) (uuid : String) (stats : PlayerStats) (u : String),
        savePlayerStats store startMs nowMs uuid stats u 0 = store u 0 := by
  have h1 : 0 ≤ (nowMs - startMs).fdiv msPerDay :=
    Int.fdiv_nonneg (by omega) (by norm_num [msPerDay])
  constructor
  · rw [getCurrentDay]
    linarith
  · intro store uuid stats u
    rw [savePlayerStats, if_neg]
    rintro ⟨-, h0⟩
    rw [getCurrentDay] at h0
    linarith

/-- C9 amended witness: at the start instant itself the index is 1 and the
baseline file of any player is untouched. -/
theorem C9_day_index_amended_witness :
    1 ≤ getCurrentDay 0 0
    ∧ savePlayerStats (fun _ _ => none) 0 0 dirA todayA dirA 0 = none := by
  have h := C9_day_index_amended 0 0 (le_refl 0)
  exact ⟨h.1, h.2 (fun _ _ => none) dirA todayA dirA⟩

/-- C10: with an empty credential list, `getNextApiKey` returns the empty
string and leaves the whole rotator state — in particular the request
counter — unchanged. -/
theorem C10_empty_key_list (st : ApiKeyState) (h : st.hypixelApiKeys = []) :
    getNextApiKey st = ("", st) := by
  rw [getNextApiKey, if_pos h]

/-- C10 witness: a concrete empty-keyed state with a nonzero counter. -/
theorem C10_empty_key_list_witness :
    ({ hypixelApiKeys := [], currentKeyIndex := 0, requestCount := 5 } : ApiKeyState).hypixelApiKeys = []
    ∧ getNextApiKey { hypixelApiKeys := [], currentKeyIndex := 0, requestCount := 5 }
      = ("", { hypixelApiKeys := [], currentKeyIndex := 0, requestCount := 5 }) :=
  ⟨rfl, C10_empty_key_list _ rfl⟩

/-- C2: every pool record the daily draw adds holds a subset of the union
of the four top-10 lists (in fact exactly that union), and whenever the draw
produces a winner, the pool record for that day was stored and the winner is
a member of that stored pool.  The truthiness guard on `summary.dayNumber`
is reflected by the hypothesis `dayNumber ≠ 0`. -/
theorem C2_pool_subset_winner_in_pool (s : DailySummary) (g : GiveawayData)
    (hd : s.dayNumber ≠ 0) :
    (∀ r ∈ (selectDailyWinner s g).2.dailyPools,
        r ∈ g.dailyPools ∨ ∀ u ∈ r.eligiblePlayers, inTopUnion s u)
    ∧ ∀ w, (selectDailyWinner s g).1 = some w →
        poolRecord s ∈ (selectDailyWinner s g).2.dailyPools ∧ w ∈ eligiblePool s := by
  constructor
  · intro r hr
    by_cases ha : averageGexp s = 0
    · rw [selectDailyWinner_of_avg_zero s g ha] at hr
      exact Or.inl hr
    · rw [selectDailyWinner_pools s g hd ha] at hr
      rcases List.mem_append.mp hr with h | h
      · exact Or.inl h
      · right
        have hr2 : r = poolRecord s := by simpa using h
        subst hr2
        intro u hu
        exact mem_eligiblePool.mp hu
  · intro w hw
    have ha := avg_ne_zero_of_winner s g w hw
    refine ⟨?_, winner_mem_pool s g w hw⟩
    rw [selectDailyWinner_pools s g hd ha]
    simp

/-- C2 witness: the example summary records its pool and crowns `uA`, a pool
member. -/
theorem C2_pool_subset_winner_in_pool_witness :
    poolRecord exPoolSummary ∈ (selectDailyWinner exPoolSummary emptyGiveaway).2.dailyPools
    ∧ uA ∈ eligiblePool exPoolSummary :=
  (C2_pool_subset_winner_in_pool exPoolSummary emptyGiveaway (by decide)).2 uA (by decide)

/-- C3: the daily average is `totalGexpGained / totalPlayers` with a zero
participant count treated as average 1; a zero average aborts the draw with
no winner; and for any compiled day whose aggregate gain is zero, the draw
yields no winner and the report pass records no daily winner. -/
theorem C3_zero_aggregate_skips_draw (gains : List PlayerGains) (date : String)
    (day d : Int) (g : GiveawayData) (all : List DailySummary) :
    ((compileFromGains gains date day).totalGexpGained = 0 →
      (selectDailyWinner { compileFromGains gains date day with dayNumber := d } g).1 = none
      ∧ (generateDailyReportCore all g (compileFromGains gains date day) d).giveaway.dailyWinners
        = g.dailyWinners)
    ∧ (∀ t : DailySummary, 0 < t.totalPlayers →
        averageGexp t = (t.totalGexpGained : ℚ) / (t.totalPlayers : ℚ))
    ∧ (∀ t : DailySummary, t.totalPlayers = 0 → averageGexp t = 1)
    ∧ ∀ (t : DailySummary) (g2 : GiveawayData), averageGexp t = 0 →
        (selectDailyWinner t g2).1 = none := by
  refine ⟨?_, ?_, ?_, ?_⟩
  · intro h0
    have hw : (selectDailyWinner { compileFromGains gains date day with dayNumber := d } g).1
        = none := by
      cases gains with
      | nil =>
        apply selectDailyWinner_none_of_pool_nil
        rfl
      | cons p rest =>
        have hp : 0 < ({ compileFromGains (p :: rest) date day with dayNumber := d }
            : DailySummary).totalPlayers := by
          simp [compileFromGains]
        have havg : averageGexp { compileFromGains (p :: rest) date day with dayNumber := d }
            = 0 := by
          rw [averageGexp, if_pos hp]
          have h0b : ({ compileFromGains (p :: rest) date day with dayNumber := d }
              : DailySummary).totalGexpGained = 0 := h0
          rw [h0b]
          simp
        simp [selectDailyWinner_of_avg_zero _ g havg]
    refine ⟨hw, ?_⟩
    rw [generateDailyReportCore]
    dsimp only
    rw [hw]
    dsimp only
    split
    · split <;> simp [selectDailyWinner_dailyWinners]
    · simp [selectDailyWinner_dailyWinners]
  · intro t ht
    rw [averageGexp, if_pos ht]
  · intro t ht
    rw [averageGexp, if_neg (by simp [ht])]
  · intro t g2 ht
    simp [selectDailyWinner_of_avg_zero t g2 ht]

/-- C3 witness: the day compiled from no gains has aggregate 0 and no
winner, and the zero-participant example summary has average 1. -/
theorem C3_zero_aggregate_skips_draw_witness :
    (selectDailyWinner { compileFromGains [] exDate 3 with dayNumber := 3 } emptyGiveaway).1
      = none
    ∧ averageGexp exPoolSummary = 1 := by
  have h := C3_zero_aggregate_skips_draw [] exDate 3 3 emptyGiveaway []
  exact ⟨(h.1 (by decide)).1, h.2.2.1 exPoolSummary (by decide)⟩

/-- Exact integer division agrees between floor division and the rounded
division used in the week-index computation. -/
theorem fdiv_seven (d : Int) (h : 7 ∣ d) : d.fdiv 7 = d / 7 := by
  obtain ⟨q, rfl⟩ := h
  rw [Int.mul_fdiv_cancel_left q (by norm_num), Int.mul_ediv_cancel_left q (by norm_num)]

/-- C5: a weekly draw happens in a report pass exactly when `7 ∣ d`: when it
does not divide, the weekly winner field and list are untouched; when it
does, a found winner for week `d / 7` is recorded; and the week filter keeps
only summaries with day index in `[7(w−1)+1, 7w]`. -/
theorem C5_weekly_draw_window (all : List DailySummary) (g : GiveawayData)
    (s0 : DailySummary) (d : Int) :
    (¬ (7 ∣ d) →
      (generateDailyReportCore all g s0 d).giveaway.weeklyWinners = g.weeklyWinners
      ∧ (generateDailyReportCore all g s0 d).summary.weeklyWinner = s0.weeklyWinner)
    ∧ (7 ∣ d → ∀ w, selectWeeklyWinner all (d / 7) = some w →
      (generateDailyReportCore all g s0 d).giveaway.weeklyWinners
        = g.weeklyWinners ++ [{ weekNumber := d / 7, winner := w }]
      ∧ (generateDailyReportCore all g s0 d).summary.weeklyWinner = some w)
    ∧ ∀ (wk : Int) (t : DailySummary), t ∈ weekSummariesOf all wk →
        7 * (wk - 1) + 1 ≤ t.dayNumber ∧ t.dayNumber ≤ 7 * wk := by
  refine ⟨?_, ?_, ?_⟩
  · intro h7
    have hmod : ¬ (d % 7 = 0) := fun hc => h7 (Int.dvd_of_emod_eq_zero hc)
    rw [generateDailyReportCore]
    dsimp only
    rw [if_neg hmod]
    constructor
    · split <;> simp [selectDailyWinner_weeklyWinners]
    · split <;> rfl
  · intro h7 w hw
    have hmod : d % 7 = 0 := Int.emod_eq_zero_of_dvd h7
    rw [generateDailyReportCore]
    dsimp only
    rw [if_pos hmod, fdiv_seven d h7, hw]
    dsimp only
    constructor
    · split <;> simp [selectDailyWinner_weeklyWinners]
    · rfl
  · intro wk t ht
    rw [weekSummariesOf] at ht
    rw [List.mem_filter] at ht
    have hb := of_decide_eq_true ht.2
    obtain ⟨h1, h2, h3⟩ := hb
    exact ⟨by omega, by omega⟩

/-- C5 witness: day 3 leaves the weekly list untouched, and the day-1
summary lies inside the window of week 1. -/
theorem C5_weekly_draw_window_witness :
    (generateDailyReportCore [] emptyGiveaway exW1 3).giveaway.weeklyWinners
      = emptyGiveaway.weeklyWinners
    ∧ exW1 ∈ weekSummariesOf [exW1] 1
    ∧ 7 * (1 - 1) + 1 ≤ exW1.dayNumber ∧ exW1.dayNumber ≤ 7 * 1 := by
  have h := C5_weekly_draw_window [] emptyGiveaway exW1 3
  have hmem : exW1 ∈ weekSummariesOf [exW1] 1 := by decide
  have hw := (C5_weekly_draw_window [exW1] emptyGiveaway exW1 3).2.2 1 exW1 hmem
  exact ⟨(h.1 (by decide)).1, hmem, hw.1, hw.2⟩

/-- C4 counterexample: for the two-day window `[exW1, exW2]` (total gain 10,
total participant-days 5) the week average computed by the code is `10 / (5 / 2) = 4`,
not `10 / 5 = 2` as the claim states. -/
theorem C4_weekly_average_counterexample :
    weekAverageGexp [exW1, exW2]
      ≠ (weekTotalGexp [exW1, exW2] : ℚ) / (weekTotalPlayers [exW1, exW2] : ℚ) := by
  norm_num [weekAverageGexp, weekTotalGexp, weekTotalPlayers, exW1, exW2]

/-- C4 amended: the week-level average equals the total aggregate gain of the
week divided by the mean participant count per summary — equivalently,
total gain times the number of summaries in the window divided by total
participant-days — and every weekly score entry has a nonzero
week-aggregated gain and score equal to that gain divided by this
average. -/
theorem C4_weekly_average_amended (ws : List DailySummary)
    (hp : 0 < weekTotalPlayers ws) :
    weekAverageGexp ws
      = (weekTotalGexp ws : ℚ) * (ws.length : ℚ) / (weekTotalPlayers ws : ℚ)
    ∧ ∀ e ∈ weeklyPlayerScores ws,
        e.score = (e.gexp : ℚ) / weekAverageGexp ws ∧ e.gexp ≠ 0 := by
  constructor
  · rw [weekAverageGexp, if_pos hp, div_div_eq_mul_div]
  · intro e he
    simp only [weeklyPlayerScores, List.mem_filterMap] at he
    obtain ⟨kv, hkv, heq⟩ := he
    split at heq
    · exact Option.noConfusion heq
    · rename_i hne
      injection heq with h2
      subst h2
      exact ⟨rfl, hne⟩

/-- C4 amended witness: the two-day example window. -/
theorem C4_weekly_average_amended_witness :
    weekAverageGexp [exW1, exW2]
      = (weekTotalGexp [exW1, exW2] : ℚ) * (([exW1, exW2] : List DailySummary).length : ℚ)
        / (weekTotalPlayers [exW1, exW2] : ℚ) :=
  (C4_weekly_average_amended [exW1, exW2] (by decide)).1

/-- Sorted-descending lists stay sorted through `take 10` and the
entry-building map. -/
theorem pairwise_map_take_sortDescBy {α β γ : Type} [LinearOrder β] (key : α → β)
    (f : α → γ) (S : γ → γ → Prop) (hf : ∀ a b : α, key b ≤ key a → S (f a) (f b))
    (l : List α) : (((sortDescBy key l).take 10).map f).Pairwise S := by
  have h1 := pairwise_sortDescBy key l
  have h2 : ((sortDescBy key l).take 10).Pairwise (fun x y => key y ≤ key x) :=
    h1.sublist (List.take_sublist 10 _)
  exact h2.map f hf

/-- Rounding to two decimals is monotone. -/
theorem nw_round_mono {a b : ℚ} (h : b ≤ a) :
    ((round ((b * 100 : ℚ)) : ℤ) : ℚ) / 100 ≤ ((round ((a * 100 : ℚ)) : ℤ) : ℚ) / 100 := by
  have h1 : (round ((b * 100 : ℚ)) : ℤ) ≤ round ((a * 100 : ℚ)) := by
    rw [round_eq, round_eq]
    exact Int.floor_mono (by linarith)
  have h2 : ((round ((b * 100 : ℚ)) : ℤ) : ℚ) ≤ ((round ((a * 100 : ℚ)) : ℤ) : ℚ) := by
    exact_mod_cast h1
  exact (div_le_div_iff_of_pos_right (by norm_num)).mpr h2

/-- A mapped 10-prefix has at most 10 elements. -/
theorem length_map_take_le {α γ : Type} (f : α → γ) (l : List α) :
    ((l.take 10).map f).length ≤ 10 := by
  simp [List.length_take]

/-- C6 counterexample: with enumeration order `[dirA, dirB]`, players A and
B have equal Bedwars gains (5 each), yet the compiled Bedwars leaderboard
lists B before A — the in-place GEXP sort ran first and left B (2 GEXP) in
front of A (1 GEXP), and the Bedwars tie preserved that order instead of the
original enumeration order. -/
theorem C6_sequential_sort_counterexample :
    (compileDailySummary [dirA, dirB] exStore 3 exDate).topGexpGainers
      = [{ username := uB, gained := 2 }, { username := uA, gained := 1 }]
    ∧ (compileDailySummary [dirA, dirB] exStore 3 exDate).topBedwarsWins
      = [{ username := uB, wins := 5 }, { username := uA, wins := 5 }]
    ∧ (compileDailySummary [dirA, dirB] exStore 3 exDate).topBedwarsWins
      ≠ [{ username := uA, wins := 5 }, { username := uB, wins := 5 }] :=
  ⟨by decide, by decide, by decide⟩

/-- C6 amended: every compiled leaderboard is the 10-prefix of a stable
descending sort (sorted, at most 10 entries, and a permutation of the
gains); ties in the GEXP list follow the original enumeration order, but
because the four sorts run in place one after another, ties in the later
lists follow the order left by the preceding sort rather than the original
enumeration order. -/
theorem C6_leaderboards_amended (gains : List PlayerGains) (date : String) (day : Int) :
    ((compileFromGains gains date day).topGexpGainers.Pairwise fun a b => b.gained ≤ a.gained)
    ∧ ((compileFromGains gains date day).topBedwarsWins.Pairwise fun a b => b.wins ≤ a.wins)
    ∧ ((compileFromGains gains date day).topSkywarsWins.Pairwise fun a b => b.wins ≤ a.wins)
    ∧ ((compileFromGains gains date day).topNetworkLevelGain.Pairwise
        fun a b => b.gained ≤ a.gained)
    ∧ (compileFromGains gains date day).topGexpGainers.length ≤ 10
    ∧ (compileFromGains gains date day).topBedwarsWins.length ≤ 10
    ∧ (compileFromGains gains date day).topSkywarsWins.length ≤ 10
    ∧ (compileFromGains gains date day).topNetworkLevelGain.length ≤ 10
    ∧ (sortDescBy (fun p => p.gexp) gains).Perm gains
    ∧ (∀ a b : PlayerGains, [a, b].Sublist gains → b.gexp ≤ a.gexp →
        [a, b].Sublist (sortDescBy (fun p => p.gexp) gains))
    ∧ ∀ a b : PlayerGains, [a, b].Sublist (sortDescBy (fun p => p.gexp) gains) →
        b.bwWins ≤ a.bwWins →
        [a, b].Sublist (sortDescBy (fun p => p.bwWins) (sortDescBy (fun p => p.gexp) gains)) := by
  dsimp only [compileFromGains]
  refine ⟨?_, ?_, ?_, ?_, ?_, ?_, ?_, ?_, perm_sortDescBy _ _, ?_, ?_⟩
  · exact pairwise_map_take_sortDescBy (fun p : PlayerGains => p.gexp) _ _
      (fun a b h => h) _
  · exact pairwise_map_take_sortDescBy (fun p : PlayerGains => p.bwWins) _ _
      (fun a b h => h) _
  · exact pairwise_map_take_sortDescBy (fun p : PlayerGains => p.swWins) _ _
      (fun a b h => h) _
  · refine pairwise_map_take_sortDescBy (fun p : PlayerGains => p.nwLevel) _ _ ?_ _
    intro a b h
    exact nw_round_mono h
  · exact length_map_take_le _ _
  · exact length_map_take_le _ _
  · exact length_map_take_le _ _
  · exact length_map_take_le _ _
  · intro a b hs hk
    refine sublist_sortDescBy ?_ hs
    simp [hk]
  · intro a b hs hk
    refine sublist_sortDescBy ?_ hs
    simp [hk]

/-- C6 amended witness: two gain records with equal GEXP keep their
enumeration order through the GEXP sort, which permutes the input. -/
theorem C6_leaderboards_amended_witness :
    [gC, gD].Sublist (sortDescBy (fun p => p.gexp) [gC, gD])
    ∧ (sortDescBy (fun p => p.gexp) [gC, gD]).Perm [gC, gD] := by
  obtain ⟨h1, h2, h3, h4, h5, h6, h7, h8, h9, h10, h11⟩ :=
    C6_leaderboards_amended [gC, gD] exDate 1
  exact ⟨h10 gC gD (List.Sublist.refl _) (by decide), h9⟩

/-- C7: `saveOverallSummary` appends unconditionally, so running the
compile-and-report pass twice for the same day leaves two history entries
for that day instead of overwriting the first one. -/
theorem C7_duplicate_history_entries :
    exSecondReport.history.countP (fun t => t.dayNumber == 3) = 2
    ∧ exSecondReport.history.length = 2 :=
  ⟨by decide, by decide⟩

end GuildEventTracker
